import Mathlib

/-
Verification of the nutrition-analysis app (Next.js chat app with an
analyze-food API route and an embeddable meal-card widget).

The embedding models:
  * the totals-consistency corrector and error handling of
    src/app/api/analyze-food/route.ts (the POST handler), and
  * the tool-output reconciler and loading/error/empty classification of
    the widget component (the Macros page).

JS numbers are modelled as rationals; Math.round is floor (x + 1/2)
(JavaScript rounds half toward positive infinity); JS truthiness of
optional strings / objects is modelled explicitly.
-/

-- JavaScript Math.round: round to nearest, half toward positive infinity.
def jsRound (x : ℚ) : ℚ := ((⌊x + 1/2⌋ : ℤ) : ℚ)

-- Truthiness of an optional JS string: undefined/null and "" are falsy.
def jsStrFalsy : Option String → Bool
  | none => true
  | some s => s.isEmpty

-- Truthiness of an optional JS string, as used by `if (error)`.
def strTruthy : Option String → Bool
  | none => false
  | some s => !s.isEmpty

-- JS `a || b` on optional strings (falsy `a` falls through to `b`).
def jsStrOr (a b : Option String) : Option String :=
  match a with
  | some s => if s.isEmpty then b else some s
  | none => b

-- A JSON nutrient object; each of the four fields may be absent.
structure NutrientsOpt where
  calories : Option ℚ
  protein : Option ℚ
  carbs : Option ℚ
  fat : Option ℚ
deriving DecidableEq

structure Ingredient where
  name : String
  brand : Option String
  serving_info : Option String
  nutrients : Option NutrientsOpt
deriving DecidableEq

structure Meal where
  meal_name : String
  meal_size : Option String
  ingredients : Option (List Ingredient)
  total_nutrients : Option NutrientsOpt
deriving DecidableEq

-- A fully-present nutrient quadruple (the reduce accumulator in the route).
structure Totals where
  calories : ℚ
  protein : ℚ
  carbs : ℚ
  fat : ℚ
deriving DecidableEq

def Totals.zero : Totals := ⟨0, 0, 0, 0⟩

-- `ingredient.nutrients?.calories || 0` and the three siblings.
def ingCal (i : Ingredient) : ℚ := (i.nutrients.bind NutrientsOpt.calories).getD 0
def ingProt (i : Ingredient) : ℚ := (i.nutrients.bind NutrientsOpt.protein).getD 0
def ingCarb (i : Ingredient) : ℚ := (i.nutrients.bind NutrientsOpt.carbs).getD 0
def ingFat (i : Ingredient) : ℚ := (i.nutrients.bind NutrientsOpt.fat).getD 0

-- One step of the `meal.ingredients.reduce` accumulator (route.ts lines 144-152).
def ingStep (acc : Totals) (i : Ingredient) : Totals :=
  ⟨acc.calories + ingCal i, acc.protein + ingProt i,
   acc.carbs + ingCarb i, acc.fat + ingFat i⟩

def sumIngredients (l : List Ingredient) : Totals := l.foldl ingStep Totals.zero

-- Rounding of each field of the calculated totals (route.ts lines 155-158).
def roundTotals (t : Totals) : Totals :=
  ⟨jsRound t.calories, jsRound t.protein, jsRound t.carbs, jsRound t.fat⟩

def Totals.toNutrients (t : Totals) : NutrientsOpt :=
  ⟨some t.calories, some t.protein, some t.carbs, some t.fat⟩

-- Correction of one meal (route.ts lines 141-167): when the meal has a
-- non-empty ingredient list, its total_nutrients is replaced by the rounded
-- element-wise sum of the ingredients; otherwise the meal is returned as is.
def correctMeal (m : Meal) : Meal :=
  match m.ingredients with
  | some ings =>
      if ings.length > 0 then
        { m with total_nutrients := some (roundTotals (sumIngredients ings)).toNutrients }
      else m
  | none => m

def correctMeals (ms : List Meal) : List Meal := ms.map correctMeal

-- `meal.total_nutrients?.calories || 0` and siblings (route.ts lines 170-178).
def mealCal (m : Meal) : ℚ := (m.total_nutrients.bind NutrientsOpt.calories).getD 0
def mealProt (m : Meal) : ℚ := (m.total_nutrients.bind NutrientsOpt.protein).getD 0
def mealCarb (m : Meal) : ℚ := (m.total_nutrients.bind NutrientsOpt.carbs).getD 0
def mealFat (m : Meal) : ℚ := (m.total_nutrients.bind NutrientsOpt.fat).getD 0

def mealStep (acc : Totals) (m : Meal) : Totals :=
  ⟨acc.calories + mealCal m, acc.protein + mealProt m,
   acc.carbs + mealCarb m, acc.fat + mealFat m⟩

-- Daily totals recomputed from the (corrected) meals (route.ts lines 170-184).
def dailyTotalsOf (ms : List Meal) : Totals :=
  roundTotals (ms.foldl mealStep Totals.zero)

-- The full corrector: corrected meals plus recomputed daily totals.
def corrector (ms : List Meal) : List Meal × Totals :=
  (correctMeals ms, dailyTotalsOf (correctMeals ms))

/-
Model of the POST handler of src/app/api/analyze-food/route.ts.

The handler's environment is: the outcome of parsing the request body,
the OPENAI_API_KEY environment variable, and the behaviour of the one
upstream fetch. Each thrown JS Error carries its message, which the
enclosing try/catch turns into a 500 response with that message.
-/

-- Outcome of `await request.json()` and the foodDescription field read.
inductive BodyParse where
  | failed (msg : String)
  | parsed (foodDescription : Option String)
deriving DecidableEq

-- The upstream body after JSON.parse(content): presence of the two keys,
-- with the meal list when present (objects and arrays are truthy; null and
-- an absent key are falsy under the `!data.dailyTotals` check).
structure ParsedData where
  dailyTotals : Option NutrientsOpt
  loggedMeals : Option (List Meal)
deriving DecidableEq

-- Behaviour of the upstream chat-completions call.
inductive Upstream where
  -- fetch itself throws (network failure); caught by the try/catch
  | fetchThrows (msg : String)
  -- response not ok and reading its error body throws; caught
  | notOkBodyThrows (status : Nat) (msg : String)
  -- response not ok with a readable body carrying errorData.error?.message
  | notOk (status : Nat) (errMessage : Option String)
  -- response ok but response.json(), choices access or JSON.parse throws
  | okBodyThrows (msg : String)
  -- response ok with a parseable content object
  | okParsed (data : ParsedData)
deriving DecidableEq

structure RequestEnv where
  body : BodyParse
  apiKey : Option String
  upstream : Upstream
deriving DecidableEq

inductive ApiResponse where
  | jsonError (status : Nat) (error : String)
  | jsonOk (dailyTotals : Totals) (loggedMeals : List Meal)
deriving DecidableEq

structure RouteOutcome where
  response : ApiResponse
  upstreamCalled : Bool
deriving DecidableEq

-- `errorData.error?.message || "Failed to process food data"`.
def upstreamErrMsg (errMessage : Option String) : String :=
  match errMessage with
  | some s => if s.isEmpty then "Failed to process food data" else s
  | none => "Failed to process food data"

-- The POST handler (route.ts lines 3-202), with the flag recording whether
-- the upstream fetch was reached.
def POST (env : RequestEnv) : RouteOutcome :=
  match env.body with
  | .failed msg => ⟨.jsonError 500 msg, false⟩
  | .parsed fd =>
      if jsStrFalsy fd then
        ⟨.jsonError 400 "Food description is required", false⟩
      else if jsStrFalsy env.apiKey then
        ⟨.jsonError 500 "OpenAI API key not configured", false⟩
      else
        match env.upstream with
        | .fetchThrows msg => ⟨.jsonError 500 msg, true⟩
        | .notOkBodyThrows _ msg => ⟨.jsonError 500 msg, true⟩
        | .notOk status errMessage =>
            ⟨.jsonError status (upstreamErrMsg errMessage), true⟩
        | .okBodyThrows msg => ⟨.jsonError 500 msg, true⟩
        | .okParsed data =>
            match data.dailyTotals, data.loggedMeals with
            | some _, some meals =>
                ⟨.jsonOk (dailyTotalsOf (correctMeals meals)) (correctMeals meals), true⟩
            | _, _ => ⟨.jsonError 500 "Invalid response format from AI", true⟩

/-
Model of the widget component (the Macros page): reconciliation of the
tool-output payload into MealData, and classification into one of the
error / loading / empty / meal-cards views.
-/

-- A value read as MealData (its dailyTotals / loggedMeals / error fields).
structure MealData where
  dailyTotals : Option NutrientsOpt
  loggedMeals : Option (List Meal)
  error : Option String
deriving DecidableEq

-- The toolOutput.result object: its own structuredContent field, and the
-- object itself viewed as MealData when used directly.
structure ResultObj where
  structuredContent : Option MealData
  self : MealData
deriving DecidableEq

-- The tool-output payload: result / structuredContent / error wrappers,
-- the payload itself viewed as MealData, and presence of foodDescription.
structure Payload where
  result : Option ResultObj
  structuredContent : Option MealData
  self : MealData
  hasFoodDescription : Bool
deriving DecidableEq

-- Extraction of mealData from toolOutput (widget lines 57-69); none models
-- both a null payload and the `mealData = null` outcome.
def extractMealData (t : Option Payload) : Option MealData :=
  match t with
  | none => none
  | some p =>
      match p.result.bind ResultObj.structuredContent with
      | some sc => some sc
      | none =>
          match p.structuredContent with
          | some sc => some sc
          | none =>
              match p.result with
              | some r => some r.self
              | none =>
                  if p.self.loggedMeals.isSome || p.self.dailyTotals.isSome then
                    some p.self
                  else none

-- `const error = mealData?.error || toolOutput?.error`.
def errorOf (t : Option Payload) : Option String :=
  jsStrOr ((extractMealData t).bind MealData.error)
    (t.bind (fun p => p.self.error))

-- `const meals = mealData?.loggedMeals || []`.
def mealsOf (t : Option Payload) : List Meal :=
  ((extractMealData t).bind MealData.loggedMeals).getD []

-- `'loggedMeals' in toolOutput && Array.isArray(...) && length > 0` (line 87).
def topHasMeals (p : Payload) : Bool :=
  match p.self.loggedMeals with
  | some l => decide (l.length > 0)
  | none => false

-- The isLoading state the useEffect settles on (widget lines 74-96).
def computeIsLoading (t : Option Payload) : Bool :=
  if (mealsOf t).length > 0 then false
  else
    match t with
    | none => true
    | some p => if p.hasFoodDescription && !topHasMeals p then true else false

inductive WidgetView where
  | errorView (msg : String)
  | loadingView
  | emptyView
  | mealsView (meals : List Meal)
deriving DecidableEq

-- The view the component renders once the isLoading state has settled
-- (widget lines 98-157): error panel first, then loading, then empty, then
-- the meal cards.
def widgetView (t : Option Payload) : WidgetView :=
  if strTruthy (errorOf t) then .errorView ((errorOf t).getD "")
  else if computeIsLoading t then .loadingView
  else if (mealsOf t).length == 0 then .emptyView
  else .mealsView (mealsOf t)

/- Concrete inputs used by the witness theorems below. -/

def wMealIngs : List Ingredient :=
  [⟨"cheese", some "Generic", some "30g", some ⟨some (1/2), some 1, some 2, some 3⟩⟩,
   ⟨"bread", none, some "2 slices", some ⟨some (1/4), some 2, some 3, some 4⟩⟩]

def wMeal : Meal :=
  ⟨"Sandwich", some "Medium", some wMealIngs, some ⟨some 999, some 9, some 9, some 9⟩⟩

def wIngPizza : Ingredient :=
  ⟨"pizza slice", none, some "1 slice", some ⟨some 285, some 12, some 36, some 10⟩⟩

def wMealPizza : Meal := ⟨"Pizza", none, some [wIngPizza], none⟩

def wEnvOk : RequestEnv :=
  ⟨.parsed (some "pizza"), some "key",
   .okParsed ⟨some ⟨some 1, some 1, some 1, some 1⟩, some [wMealPizza]⟩⟩

def wMealPizzaCorrected : Meal :=
  ⟨"Pizza", none, some [wIngPizza], some ⟨some 285, some 12, some 36, some 10⟩⟩

def wEnvKeyless : RequestEnv := ⟨.parsed (some "x"), none, .fetchThrows "boom"⟩

def wMdInner : MealData := ⟨some ⟨some 1, some 2, some 3, some 4⟩, none, none⟩

def wPayloadA : Payload :=
  ⟨some ⟨some wMdInner, ⟨none, none, none⟩⟩, none, ⟨none, none, none⟩, false⟩

def wPayloadB : Payload := ⟨none, some wMdInner, ⟨none, none, none⟩, false⟩

def wPayloadC : Payload := ⟨some ⟨none, wMdInner⟩, none, ⟨none, none, none⟩, false⟩

def wPayloadD : Payload := ⟨none, none, wMdInner, false⟩

def wPayloadErr : Payload := ⟨none, none, ⟨none, none, some "boom"⟩, true⟩

def wPayloadLoading : Payload := ⟨none, none, ⟨none, none, none⟩, true⟩

def wMealNoIngs : Meal := ⟨"Snack", none, none, some ⟨some 100, some 1, some 2, some 3⟩⟩

def wMealEmptyIngs : Meal := ⟨"Water", some "Small", some [], some ⟨some 0, none, none, none⟩⟩

def wBareIng : Ingredient := ⟨"water", none, none, none⟩

def wPartialIng : Ingredient := ⟨"salt", none, none, some ⟨none, some 1, none, none⟩⟩

def wBareMeal : Meal := ⟨"Fast", none, none, none⟩

/- Helper lemmas about the fold accumulators. -/

theorem foldl_ingStep_eq (l : List Ingredient) (acc : Totals) :
    l.foldl ingStep acc =
      ⟨acc.calories + (l.map ingCal).sum, acc.protein + (l.map ingProt).sum,
       acc.carbs + (l.map ingCarb).sum, acc.fat + (l.map ingFat).sum⟩ := by
  induction l generalizing acc with
  | nil => rcases acc with ⟨a, b, c, d⟩; simp
  | cons x t ih => simp [List.foldl_cons, ih, ingStep, add_assoc]

theorem sumIngredients_eq (l : List Ingredient) :
    sumIngredients l =
      ⟨(l.map ingCal).sum, (l.map ingProt).sum,
       (l.map ingCarb).sum, (l.map ingFat).sum⟩ := by
  simp [sumIngredients, foldl_ingStep_eq, Totals.zero]

theorem foldl_mealStep_eq (ms : List Meal) (acc : Totals) :
    ms.foldl mealStep acc =
      ⟨acc.calories + (ms.map mealCal).sum, acc.protein + (ms.map mealProt).sum,
       acc.carbs + (ms.map mealCarb).sum, acc.fat + (ms.map mealFat).sum⟩ := by
  induction ms generalizing acc with
  | nil => rcases acc with ⟨a, b, c, d⟩; simp
  | cons x t ih => simp [List.foldl_cons, ih, mealStep, add_assoc]

theorem dailyTotalsOf_eq (ms : List Meal) :
    dailyTotalsOf ms =
      ⟨jsRound ((ms.map mealCal).sum), jsRound ((ms.map mealProt).sum),
       jsRound ((ms.map mealCarb).sum), jsRound ((ms.map mealFat).sum)⟩ := by
  simp [dailyTotalsOf, foldl_mealStep_eq, Totals.zero, roundTotals]

theorem POST_ok_inversion (env : RequestEnv) (dt : Totals) (meals : List Meal)
    (h : (POST env).response = .jsonOk dt meals) :
    ∃ ms0, meals = correctMeals ms0 ∧ dt = dailyTotalsOf (correctMeals ms0) := by
  rcases env with ⟨body, key, up⟩
  cases body with
  | failed msg => simp [POST] at h
  | parsed fd =>
    by_cases hfd : jsStrFalsy fd
    · simp [POST, hfd] at h
    · by_cases hk : jsStrFalsy key
      · simp [POST, hfd, hk] at h
      · cases up with
        | fetchThrows msg => simp [POST, hfd, hk] at h
        | notOkBodyThrows s msg => simp [POST, hfd, hk] at h
        | notOk s em => simp [POST, hfd, hk] at h
        | okBodyThrows msg => simp [POST, hfd, hk] at h
        | okParsed data =>
          rcases data with ⟨dtot, lm⟩
          cases dtot with
          | none => simp [POST, hfd, hk] at h
          | some nd =>
            cases lm with
            | none => simp [POST, hfd, hk] at h
            | some ms0 =>
              simp [POST, hfd, hk] at h
              exact ⟨ms0, h.2.symm, h.1.symm⟩

/-- C1: for every meal in the analyze-food response with a non-empty
ingredient list, after the totals-consistency correction each of the four
fields of total_nutrients equals the rounding (JS Math.round, the host
library's default) of the sum of that field over all the meal's
ingredients' nutrients — the sum is taken first and rounded afterwards. -/
theorem C1_meal_total_is_rounded_sum (m : Meal) (ings : List Ingredient)
    (h : m.ingredients = some ings) (hne : ings ≠ []) :
    (correctMeal m).total_nutrients =
      some ⟨some (jsRound ((ings.map ingCal).sum)),
            some (jsRound ((ings.map ingProt).sum)),
            some (jsRound ((ings.map ingCarb).sum)),
            some (jsRound ((ings.map ingFat).sum))⟩ := by
  have hlen : 0 < ings.length := List.length_pos.mpr hne
  simp [correctMeal, h, hlen, roundTotals, Totals.toNutrients, sumIngredients_eq]

/-- Witness for C1 at a concrete two-ingredient meal with fractional values. -/
theorem C1_witness :
    (correctMeal wMeal).total_nutrients =
      some ⟨some (jsRound ((wMealIngs.map ingCal).sum)),
            some (jsRound ((wMealIngs.map ingProt).sum)),
            some (jsRound ((wMealIngs.map ingCarb).sum)),
            some (jsRound ((wMealIngs.map ingFat).sum))⟩ :=
  C1_meal_total_is_rounded_sum wMeal wMealIngs rfl (by decide)

/-- C2: for every corrected analyze-food response (a 200 response of the
POST handler), each of the four fields of dailyTotals equals the rounding
of the sum of that field over the total_nutrients of all corrected meals
in loggedMeals. -/
theorem C2_daily_totals_is_rounded_sum (env : RequestEnv)
    (dt : Totals) (meals : List Meal)
    (h : (POST env).response = .jsonOk dt meals) :
    dt = ⟨jsRound ((meals.map mealCal).sum), jsRound ((meals.map mealProt).sum),
          jsRound ((meals.map mealCarb).sum), jsRound ((meals.map mealFat).sum)⟩ := by
  obtain ⟨ms0, hm, hd⟩ := POST_ok_inversion env dt meals h
  rw [hd, hm, dailyTotalsOf_eq]

/-- Witness for C2 at a concrete successful request. -/
theorem C2_witness :
    (⟨285, 12, 36, 10⟩ : Totals) =
      ⟨jsRound (([wMealPizzaCorrected].map mealCal).sum),
       jsRound (([wMealPizzaCorrected].map mealProt).sum),
       jsRound (([wMealPizzaCorrected].map mealCarb).sum),
       jsRound (([wMealPizzaCorrected].map mealFat).sum)⟩ :=
  C2_daily_totals_is_rounded_sum wEnvOk ⟨285, 12, 36, 10⟩ [wMealPizzaCorrected] (by
    have hfd : jsStrFalsy (some "pizza") = false := by decide
    have hk : jsStrFalsy (some "key") = false := by decide
    simp only [POST, wEnvOk, hfd, hk, Bool.false_eq_true, if_false,
      correctMeals, correctMeal, wMealPizza, wIngPizza, List.map,
      dailyTotalsOf, sumIngredients, List.foldl, ingStep, ingCal, ingProt,
      ingCarb, ingFat, Totals.zero, roundTotals, Totals.toNutrients, jsRound,
      mealStep, mealCal, mealProt, mealCarb, mealFat, wMealPizzaCorrected,
      Option.bind, Option.getD]
    norm_num)

/-- C3: the totals-consistency corrector (per-meal recomputation followed
by daily-totals recomputation) is a pure function of the meal list and is
idempotent: applied to its own output it yields the same meals and the
same daily totals. -/
theorem C3_corrector_idempotent (ms : List Meal) :
    corrector (corrector ms).1 = corrector ms := by
  have key : ∀ m, correctMeal (correctMeal m) = correctMeal m := by
    intro m
    rcases m with ⟨n, sz, ings, tot⟩
    cases ings with
    | none => rfl
    | some l =>
      by_cases hl : l.length > 0
      · simp [correctMeal, hl]
      · simp [correctMeal, hl]
  have h2 : correctMeals (correctMeals ms) = correctMeals ms := by
    have hcomp : correctMeal ∘ correctMeal = correctMeal := funext key
    simp [correctMeals, List.map_map, hcomp]
  simp [corrector, h2]

/-- Counterexample to C4: with a valid body and API key, a non-OK upstream
response with status 429 is relayed with status 429, not 500, so not every
failure of the analyze-food endpoint returns HTTP 500. -/
theorem C4_counterexample :
    (POST ⟨.parsed (some "pizza"), some "key", .notOk 429 (some "rate limited")⟩).response
        = .jsonError 429 "rate limited" ∧
    decide ((POST ⟨.parsed (some "pizza"), some "key",
        .notOk 429 (some "rate limited")⟩).response
          = .jsonError 500 "rate limited") = false := by decide

/-- C4 amended: every failure body is { error : string }; the unset-API-key,
thrown-upstream-call, unparseable-body and missing-keys failures return 500,
while a non-OK upstream HTTP response is relayed with the upstream's own
status code (and its error message when present). -/
theorem C4_amended_failure_statuses (env : RequestEnv) (fd : Option String)
    (hb : env.body = .parsed fd) (hfd : jsStrFalsy fd = false) :
    (jsStrFalsy env.apiKey = true →
      (POST env).response = .jsonError 500 "OpenAI API key not configured") ∧
    (∀ msg, env.upstream = .fetchThrows msg → jsStrFalsy env.apiKey = false →
      (POST env).response = .jsonError 500 msg) ∧
    (∀ s msg, env.upstream = .notOkBodyThrows s msg → jsStrFalsy env.apiKey = false →
      (POST env).response = .jsonError 500 msg) ∧
    (∀ msg, env.upstream = .okBodyThrows msg → jsStrFalsy env.apiKey = false →
      (POST env).response = .jsonError 500 msg) ∧
    (∀ data, env.upstream = .okParsed data → jsStrFalsy env.apiKey = false →
      data.dailyTotals = none ∨ data.loggedMeals = none →
      (POST env).response = .jsonError 500 "Invalid response format from AI") ∧
    (∀ s em, env.upstream = .notOk s em → jsStrFalsy env.apiKey = false →
      (POST env).response = .jsonError s (upstreamErrMsg em)) := by
  rcases env with ⟨body, key, up⟩
  cases hb
  refine ⟨?_, ?_, ?_, ?_, ?_, ?_⟩
  · intro hk; simp [POST, hfd, hk]
  · intro msg hu hk; cases hu; simp [POST, hfd, hk]
  · intro s msg hu hk; cases hu; simp [POST, hfd, hk]
  · intro msg hu hk; cases hu; simp [POST, hfd, hk]
  · intro data hu hk hmiss
    cases hu
    rcases data with ⟨dtot, lm⟩
    rcases hmiss with hmiss | hmiss
    · cases hmiss
      cases lm <;> simp [POST, hfd, hk]
    · cases hmiss
      cases dtot <;> simp [POST, hfd, hk]
  · intro s em hu hk; cases hu; simp [POST, hfd, hk]

/-- Witness for the amended C4: a missing API key yields 500 with the
configuration error body. -/
theorem C4_witness :
    (POST wEnvKeyless).response = .jsonError 500 "OpenAI API key not configured" :=
  (C4_amended_failure_statuses wEnvKeyless (some "x") rfl (by decide)).1 (by decide)

/-- C5: the widget reconciler extracts meal data by the first matching rule
in this order: nested result.structuredContent; else top-level
structuredContent; else the top-level result object; else the payload
itself when it carries a loggedMeals or dailyTotals key. -/
theorem C5_extraction_order (p : Payload) :
    (∀ r X, p.result = some r → r.structuredContent = some X →
        extractMealData (some p) = some X) ∧
    (p.result.bind ResultObj.structuredContent = none →
      ∀ X, p.structuredContent = some X → extractMealData (some p) = some X) ∧
    (p.result.bind ResultObj.structuredContent = none → p.structuredContent = none →
      ∀ r, p.result = some r → extractMealData (some p) = some r.self) ∧
    (p.result = none → p.structuredContent = none →
      (p.self.loggedMeals.isSome || p.self.dailyTotals.isSome) = true →
        extractMealData (some p) = some p.self) := by
  refine ⟨?_, ?_, ?_, ?_⟩
  · intro r X hr hsc
    simp [extractMealData, hr, hsc, Option.bind]
  · intro h X hsc
    simp [extractMealData, h, hsc]
  · intro h h2 r hr
    have hrsc : r.structuredContent = none := by
      rw [hr] at h; simpa using h
    simp [extractMealData, h, h2, hr, hrsc]
  · intro h h2 h3
    simp [extractMealData, h, h2, h3]

/-- Witness for C5: the four extraction rules at concrete payloads, among
them the shapes with and without the result wrapper. -/
theorem C5_witness :
    extractMealData (some wPayloadA) = some wMdInner ∧
    extractMealData (some wPayloadB) = some wMdInner ∧
    extractMealData (some wPayloadC) = some wMdInner ∧
    extractMealData (some wPayloadD) = some wMdInner :=
  ⟨(C5_extraction_order wPayloadA).1 ⟨some wMdInner, ⟨none, none, none⟩⟩ wMdInner rfl rfl,
   (C5_extraction_order wPayloadB).2.1 rfl wMdInner rfl,
   (C5_extraction_order wPayloadC).2.2.1 rfl rfl ⟨none, wMdInner⟩ rfl,
   (C5_extraction_order wPayloadD).2.2.2 rfl rfl (by decide)⟩

/-- C6: an explicitly-null tool-output payload is classified as still
loading, and the widget renders the loading view (hence neither the error
view nor the empty no-meal-data view). -/
theorem C6_null_payload_is_loading :
    computeIsLoading none = true ∧ widgetView none = .loadingView := by
  constructor
  · decide
  · decide

/-- Counterexample to C7: a non-null payload carrying a foodDescription
key and no non-empty meal list, but also a truthy error field, renders the
error view, not the loading view. -/
theorem C7_counterexample :
    wPayloadErr.hasFoodDescription = true ∧ mealsOf (some wPayloadErr) = [] ∧
    topHasMeals wPayloadErr = false ∧
    widgetView (some wPayloadErr) = .errorView "boom" ∧
    decide (widgetView (some wPayloadErr) = .loadingView) = false := by
  refine ⟨rfl, by decide, by decide, by decide, by decide⟩

/-- C7 amended: for every non-null payload that carries a foodDescription
key, has no non-empty meal list (neither extracted nor top-level), and
carries no truthy error field, the widget classifies the state as loading
and shows the loading view rather than the empty-data view. -/
theorem C7_amended_loading_detection (p : Payload)
    (hfd : p.hasFoodDescription = true)
    (hm : mealsOf (some p) = [])
    (hTop : topHasMeals p = false)
    (herr : strTruthy (errorOf (some p)) = false) :
    computeIsLoading (some p) = true ∧ widgetView (some p) = .loadingView := by
  have hload : computeIsLoading (some p) = true := by
    simp [computeIsLoading, hm, hfd, hTop]
  exact ⟨hload, by simp [widgetView, herr, hload]⟩

/-- Witness for the amended C7 at a concrete in-flight payload. -/
theorem C7_witness :
    computeIsLoading (some wPayloadLoading) = true ∧
    widgetView (some wPayloadLoading) = .loadingView :=
  C7_amended_loading_detection wPayloadLoading rfl (by decide) (by decide) (by decide)

/-- C8: a POST whose JSON body parses but whose foodDescription field is
missing or empty returns HTTP 400 with body exactly
{ error: "Food description is required" }, and the upstream call is never
made. -/
theorem C8_missing_food_description (env : RequestEnv) (fd : Option String)
    (hb : env.body = .parsed fd) (hfd : jsStrFalsy fd = true) :
    POST env = ⟨.jsonError 400 "Food description is required", false⟩ := by
  rcases env with ⟨body, key, up⟩
  cases hb
  simp [POST, hfd]

/-- Witness for C8: both the missing-field and the empty-string body. -/
theorem C8_witness :
    POST ⟨.parsed none, some "k", .fetchThrows "x"⟩
        = ⟨.jsonError 400 "Food description is required", false⟩ ∧
    POST ⟨.parsed (some ""), none, .fetchThrows "x"⟩
        = ⟨.jsonError 400 "Food description is required", false⟩ :=
  ⟨C8_missing_food_description ⟨.parsed none, some "k", .fetchThrows "x"⟩ none rfl (by decide),
   C8_missing_food_description ⟨.parsed (some ""), none, .fetchThrows "x"⟩ (some "") rfl
    (by decide)⟩

/-- C9: the totals-consistency correction changes nothing but the
total_nutrients of meals with a non-empty ingredient list: name, size and
ingredients are always unchanged, a meal with zero ingredients (absent or
empty list) is returned entirely unchanged, and the meal count and order
are preserved (the correction is a map over the list). -/
theorem C9_correction_frame (m : Meal) (ms : List Meal) :
    (correctMeal m).meal_name = m.meal_name ∧
    (correctMeal m).meal_size = m.meal_size ∧
    (correctMeal m).ingredients = m.ingredients ∧
    (m.ingredients = none → correctMeal m = m) ∧
    (m.ingredients = some [] → correctMeal m = m) ∧
    correctMeals ms = ms.map correctMeal ∧
    (correctMeals ms).length = ms.length := by
  have hfields : (correctMeal m).meal_name = m.meal_name ∧
      (correctMeal m).meal_size = m.meal_size ∧
      (correctMeal m).ingredients = m.ingredients := by
    rcases m with ⟨n, sz, ings, tot⟩
    cases ings with
    | none => exact ⟨rfl, rfl, rfl⟩
    | some l => by_cases hl : l.length > 0 <;> simp [correctMeal, hl]
  refine ⟨hfields.1, hfields.2.1, hfields.2.2, ?_, ?_, rfl, by simp [correctMeals]⟩
  · intro h
    rcases m with ⟨n, sz, ings, tot⟩
    cases h
    rfl
  · intro h
    rcases m with ⟨n, sz, ings, tot⟩
    cases h
    simp [correctMeal]

/-- Witness for C9: zero-ingredient meals are returned unchanged and the
meal count is preserved. -/
theorem C9_witness :
    correctMeal wMealNoIngs = wMealNoIngs ∧
    correctMeal wMealEmptyIngs = wMealEmptyIngs ∧
    (correctMeals [wMealNoIngs]).length = [wMealNoIngs].length :=
  ⟨(C9_correction_frame wMealNoIngs []).2.2.2.1 rfl,
   (C9_correction_frame wMealEmptyIngs []).2.2.2.2.1 rfl,
   (C9_correction_frame wMealNoIngs [wMealNoIngs]).2.2.2.2.2.2⟩

/-- C10: in the correction, an ingredient with an absent nutrients object
leaves the accumulator unchanged (contributes 0 to every field), an
ingredient missing an individual nutrient field contributes 0 to that
field, and a meal with an absent total_nutrients leaves the daily-totals
accumulator unchanged; the (total) correction never fails on such inputs. -/
theorem C10_missing_fields_contribute_zero (i : Ingredient) (n : NutrientsOpt)
    (m : Meal) (acc : Totals) :
    (i.nutrients = none → ingStep acc i = acc) ∧
    (i.nutrients = some n →
      (n.calories = none → ingCal i = 0) ∧ (n.protein = none → ingProt i = 0) ∧
      (n.carbs = none → ingCarb i = 0) ∧ (n.fat = none → ingFat i = 0)) ∧
    (m.total_nutrients = none → mealStep acc m = acc) := by
  refine ⟨?_, ?_, ?_⟩
  · intro h
    rcases acc with ⟨a, b, c, d⟩
    simp [ingStep, ingCal, ingProt, ingCarb, ingFat, h]
  · intro h
    refine ⟨?_, ?_, ?_, ?_⟩ <;> intro h2 <;>
      simp [ingCal, ingProt, ingCarb, ingFat, h, h2]
  · intro h
    rcases acc with ⟨a, b, c, d⟩
    simp [mealStep, mealCal, mealProt, mealCarb, mealFat, h]

/-- Witness for C10: a bare ingredient and a bare meal leave the
accumulators unchanged, and a partially-filled nutrient object contributes
0 in its missing calories field. -/
theorem C10_witness :
    ingStep Totals.zero wBareIng = Totals.zero ∧
    mealStep Totals.zero wBareMeal = Totals.zero ∧
    ingCal wPartialIng = 0 :=
  ⟨(C10_missing_fields_contribute_zero wBareIng ⟨none, none, none, none⟩ wBareMeal
      Totals.zero).1 rfl,
   (C10_missing_fields_contribute_zero wBareIng ⟨none, none, none, none⟩ wBareMeal
      Totals.zero).2.2 rfl,
   ((C10_missing_fields_contribute_zero wPartialIng ⟨none, some 1, none, none⟩ wBareMeal
      Totals.zero).2.1 rfl).1 rfl⟩
